import Mathlib

/-!
Shallow embedding of the `oeffimonitor-cli` core (`src/main.rs`): the
feed-normalization pipeline (`make_api_request` and its helpers), the board
formatter (`get_departure_board`), the frame differ (`Buffer::get_diff`) and
the refresh loop (`main`).  Machine integers are modelled as `Nat`/`Int` with
explicit `% 2 ^ 16` where the Rust code casts to `u16`.  Rust arithmetic that
can overflow is modelled with the overflow-checked (debug-profile) semantics:
an underflowing subtraction and a remainder by zero are panics.  Fallible code
returns `Except`/`Option`; panics are a distinguished failure constructor so
that returned errors and crashes stay distinguishable.
-/

namespace Oeffi

/-! ### JSON values (`serde_json::Value`)

Numbers are restricted to integers: every numeric field the program reads
(`countdown`) is deserialized as `i64`. -/

inductive Json : Type where
  | null : Json
  | bool (b : Bool) : Json
  | num (n : Int) : Json
  | str (s : String) : Json
  | arr (xs : List Json) : Json
  | obj (kvs : List (String × Json)) : Json

/-- Indexing `value[key]` on a `serde_json::Value`: returns `Null` when the value is
not an object or the key is absent. -/
def Json.index : Json → String → Json
  | .obj kvs, k => ((kvs.find? (fun kv => kv.fst == k)).map Prod.snd).getD Json.null
  | _, _ => Json.null

/-- The accessor `Value::as_array` (`main.rs` lines 241, 243-245, 256). -/
def Json.asArray? : Json → Option (List Json)
  | .arr xs => some xs
  | _ => none

/-- serde field access on a struct being deserialized: the value must be an
object; extra fields are ignored. -/
def getField : Json → String → Option Json
  | .obj kvs, k => (kvs.find? (fun kv => kv.fst == k)).map Prod.snd
  | _, _ => none

def parseStr : Json → Option String
  | .str s => some s
  | _ => none

def parseI64 : Json → Option Int
  | .num n => some n
  | _ => none

/-! ### Data model (`main.rs` lines 76-158) -/

structure StopProperties where
  title : String
deriving DecidableEq

structure WienerLinienLocationStop where
  properties : StopProperties
deriving DecidableEq

/-- Modelled from the spec: the `Timestamp` type of the external
`iso8601_timestamp` crate, an out-of-scope collaborator (spec section 1).
We keep the raw text plus the hour and minute components, which are the only
pieces the board renderer reads (`time.hour()`, `time.minute()`). -/
structure Timestamp where
  raw : String
  hour : Nat
  minute : Nat
deriving DecidableEq

/-- Modelled from the spec: deserialization of `Timestamp` from a JSON string
by the external `iso8601_timestamp` crate.  Modelled as accepting strings laid
out like the spec's round-trip example `"2024-01-01T10:00:00"` (a digit is
checked positionally; `48` is the code point of the zero digit). -/
def parseTimestamp (s : String) : Option Timestamp :=
  match s.toList with
  | y1 :: y2 :: y3 :: y4 :: '-' :: m1 :: m2 :: '-' :: d1 :: d2 :: 'T' ::
      h1 :: h2 :: ':' :: n1 :: n2 :: ':' :: s1 :: s2 :: _ =>
    if y1.isDigit && y2.isDigit && y3.isDigit && y4.isDigit &&
        m1.isDigit && m2.isDigit && d1.isDigit && d2.isDigit &&
        h1.isDigit && h2.isDigit && n1.isDigit && n2.isDigit &&
        s1.isDigit && s2.isDigit then
      some { raw := s
             hour := 10 * (h1.toNat - 48) + (h2.toNat - 48)
             minute := 10 * (n1.toNat - 48) + (n2.toNat - 48) }
    else none
  | _ => none

structure WienerLinienLineDepartureTime where
  time_planned : Timestamp
  time_real : Option Timestamp
  countdown : Int
deriving DecidableEq

structure WienerLinienLineDeparture where
  departure_time : WienerLinienLineDepartureTime
deriving DecidableEq

structure WienerLinienLineDepartures where
  departure : List WienerLinienLineDeparture
deriving DecidableEq

structure WienerLinienLine where
  name : String
  destination : String
  vehicle_type : String
  departures : WienerLinienLineDepartures
deriving DecidableEq

structure WienerLinienMonitor where
  locationStop : WienerLinienLocationStop
  lines : List WienerLinienLine
deriving DecidableEq

structure WienerLinienTrafficInfo where
  title : String
  description : String
deriving DecidableEq

inductive WienerLinienVehicleType where
  | Tram
  | Metro
  | CityBus
  | NightBus
deriving DecidableEq

structure Line where
  vehicle_type : WienerLinienVehicleType
  name : String
deriving DecidableEq

structure Departure where
  time_planned : Timestamp
  time_real : Option Timestamp
  countdown : Int
  station_name : String
  destination_name : String
  line : Line
deriving DecidableEq

/-! ### Error model (`main.rs` lines 45-55) and panics -/

inductive ApiRequestError where
  | apiReqFailed (msg : String)
  | jsonParsingFailed (what : String)
  | missingField (fieldName : String)
deriving DecidableEq

/-- A failed normalization: either an `ApiRequestError` returned through
`Result`, or a Rust panic (`panic!` / `unwrap` / checked arithmetic). -/
inductive Fail where
  | err (e : ApiRequestError)
  | panicked (msg : String)
deriving DecidableEq

abbrev NR (α : Type) : Type := Except Fail α

deriving instance DecidableEq for Except

/-! ### serde-derived deserializers of the payload structs -/

def parseStopProperties (j : Json) : Option StopProperties :=
  ((getField j "title").bind parseStr).map StopProperties.mk

def parseLocationStop (j : Json) : Option WienerLinienLocationStop :=
  ((getField j "properties").bind parseStopProperties).map WienerLinienLocationStop.mk

/-- An `Option<Timestamp>` field: missing or `null` is `None`; a string must
parse; any other shape is a deserialization error. -/
def parseTimeReal (j : Json) : Option (Option Timestamp) :=
  match getField j "timeReal" with
  | none => some none
  | some .null => some none
  | some (.str s) => (parseTimestamp s).map some
  | some _ => none

def parseDepartureTime (j : Json) : Option WienerLinienLineDepartureTime :=
  match (getField j "timePlanned").bind parseStr with
  | none => none
  | some tps =>
    match parseTimestamp tps with
    | none => none
    | some tp =>
      match parseTimeReal j with
      | none => none
      | some tr =>
        match (getField j "countdown").bind parseI64 with
        | none => none
        | some cd => some { time_planned := tp, time_real := tr, countdown := cd }

def parseWLDeparture (j : Json) : Option WienerLinienLineDeparture :=
  ((getField j "departureTime").bind parseDepartureTime).map WienerLinienLineDeparture.mk

def parseWLDepartures : List Json → Option (List WienerLinienLineDeparture)
  | [] => some []
  | j :: js =>
    match parseWLDeparture j with
    | none => none
    | some d => (parseWLDepartures js).map (d :: ·)

def parseWLLine (j : Json) : Option WienerLinienLine :=
  match (getField j "name").bind parseStr with
  | none => none
  | some nm =>
    match (getField j "towards").bind parseStr with
    | none => none
    | some tw =>
      match (getField j "type").bind parseStr with
      | none => none
      | some ty =>
        match (getField j "departures").bind (fun d => (getField d "departure").bind Json.asArray?) with
        | none => none
        | some arr =>
          match parseWLDepartures arr with
          | none => none
          | some ds =>
            some { name := nm, destination := tw, vehicle_type := ty
                   departures := { departure := ds } }

def parseTrafficInfo (j : Json) : Option WienerLinienTrafficInfo :=
  match (getField j "title").bind parseStr with
  | none => none
  | some t =>
    match (getField j "description").bind parseStr with
    | none => none
    | some d => some { title := t, description := d }

/-! ### Normalization (`make_api_request`, lines 227-300) -/

/-- The function `Line::from_wiener_linien_line` (lines 161-172): the fixed vehicle-code
table; an unrecognized code hits `panic!("Unknown vehicle type!")`. -/
def Line.from_wiener_linien_line (input : WienerLinienLine) : NR Line :=
  match input.vehicle_type with
  | "ptTram" => .ok { vehicle_type := .Tram, name := input.name }
  | "ptMetro" => .ok { vehicle_type := .Metro, name := input.name }
  | "ptBusCity" => .ok { vehicle_type := .CityBus, name := input.name }
  | "ptBusNight" => .ok { vehicle_type := .NightBus, name := input.name }
  | _ => .error (.panicked "Unknown vehicle type!")

/-- The constructor `Departure::from_wiener_linien_api` (lines 175-192). -/
def Departure.from_wiener_linien_api (t_line : WienerLinienLine)
    (t_time_planned : Timestamp) (t_time_real : Option Timestamp)
    (t_countdown : Int) (t_station_name : String) : NR Departure :=
  match Line.from_wiener_linien_line t_line with
  | .error f => .error f
  | .ok ln =>
    .ok { time_planned := t_time_planned
          time_real := t_time_real
          countdown := t_countdown
          station_name := t_station_name
          destination_name := t_line.destination
          line := ln }

/-- The per-line loop at line 256-259: each element of the `lines` array is
deserialized with `.unwrap()`, so a malformed element is a panic, not an
error return. -/
def parseLines : List Json → NR (List WienerLinienLine)
  | [] => .ok []
  | j :: js =>
    match parseWLLine j with
    | none => .error (.panicked "called Result::unwrap() on an Err value")
    | some wl => (parseLines js).map (wl :: ·)

/-- One iteration of the `try_for_each` over `monitors` (lines 248-270):
`locationStop` is deserialized (failure is `JsonParsingFailed`, an error);
a missing or non-array `lines` is a `MissingField` error; the elements of
`lines` are deserialized with `.unwrap()` (failure is a panic). -/
def parseMonitor (monitor : Json) : NR WienerLinienMonitor :=
  match parseLocationStop (monitor.index "locationStop") with
  | none => .error (.err (.jsonParsingFailed "WienerLinienLocationStop"))
  | some station =>
    match (monitor.index "lines").asArray? with
    | none => .error (.err (.missingField "lines missing or of wrong type"))
    | some arr_lines =>
      match parseLines arr_lines with
      | .error f => .error f
      | .ok v_lines => .ok { locationStop := station, lines := v_lines }

def parseMonitors : List Json → NR (List WienerLinienMonitor)
  | [] => .ok []
  | m :: ms =>
    match parseMonitor m with
    | .error f => .error f
    | .ok wm => (parseMonitors ms).map (wm :: ·)

/-- The flattening loops at lines 272-287, innermost level: one departure. -/
def depsOfDepartures (t_line : WienerLinienLine) (station : String) :
    List WienerLinienLineDeparture → NR (List Departure)
  | [] => .ok []
  | d :: ds =>
    match Departure.from_wiener_linien_api t_line d.departure_time.time_planned
        d.departure_time.time_real d.departure_time.countdown station with
    | .error f => .error f
    | .ok dep => (depsOfDepartures t_line station ds).map (dep :: ·)

def depsOfLines (station : String) : List WienerLinienLine → NR (List Departure)
  | [] => .ok []
  | l :: ls =>
    match depsOfDepartures l station l.departures.departure with
    | .error f => .error f
    | .ok ds => (depsOfLines station ls).map (ds ++ ·)

def collectDepartures : List WienerLinienMonitor → NR (List Departure)
  | [] => .ok []
  | m :: ms =>
    match depsOfLines m.locationStop.properties.title m.lines with
    | .error f => .error f
    | .ok ds => (collectDepartures ms).map (ds ++ ·)

/-- The traffic-info collection (lines 289-295): each element is deserialized,
the results are collected into `Result<Vec<_>, _>` and `.ok()` discards the
whole list on the first failure. -/
def tiParse : List Json → Option (List WienerLinienTrafficInfo)
  | [] => some []
  | t :: ts =>
    match parseTrafficInfo t with
    | none => none
    | some ti => (tiParse ts).map (ti :: ·)

def monitorsJson (payload : Json) : Option (List Json) :=
  ((payload.index "data").index "monitors").asArray?

def trafficInfosJson (payload : Json) : Option (List Json) :=
  ((payload.index "data").index "trafficInfos").asArray?

/-- The comparison of `impl Ord for Departure` (lines 194-198): solely
`countdown`. -/
def depLE (a b : Departure) : Prop := a.countdown ≤ b.countdown

instance : DecidableRel depLE := fun a b =>
  inferInstanceAs (Decidable (a.countdown ≤ b.countdown))

instance : IsTotal Departure depLE := ⟨fun a b => Int.le_total a.countdown b.countdown⟩

instance : IsTrans Departure depLE := ⟨fun _ _ _ h1 h2 => le_trans h1 h2⟩

/-- The body of `make_api_request` after the transport and JSON-text parsing steps
(lines 241-299), without the final sort: monitors (strict), then the
flattened departures, then the lenient traffic notes. -/
def normalizeRaw (payload : Json) :
    NR (List Departure × Option (List WienerLinienTrafficInfo)) :=
  match monitorsJson payload with
  | none => .error (.err (.missingField "monitors"))
  | some mjs =>
    match parseMonitors mjs with
    | .error f => .error f
    | .ok wl_monitors =>
      match collectDepartures wl_monitors with
      | .error f => .error f
      | .ok departures =>
        .ok (departures, (trafficInfosJson payload).bind tiParse)

/-- The whole of `make_api_request` including the final `departures.sort()` (line 297).
`Vec::sort` is a stable sort driven by the `Ord` comparison above; every
stable sort with the same comparison produces the same list, so it is
modelled by insertion sort on `depLE`. -/
def normalize (payload : Json) :
    NR (List Departure × Option (List WienerLinienTrafficInfo)) :=
  match normalizeRaw payload with
  | .error f => .error f
  | .ok (departures, traffic) => .ok (List.insertionSort depLE departures, traffic)

/-- True iff the outcome is an `ApiRequestError` returned through `Result`
(as opposed to a success or a panic). -/
def isApiErrOutcome {α : Type} : NR α → Bool
  | .error (.err _) => true
  | _ => false

/-! ### Board formatter (`get_departure_board`, lines 302-380)

The external table-layout library (`comfy_table`) is the out-of-scope
collaborator that turns rows into a character grid; per the spec only the
rows handed to it matter, so a `Table` is modelled as its header plus the
ordered list of added rows, each row a list of cell strings.  The wall clock
(`chrono::Local::now()` formatted `HH:MM:SS`, line 360) is an external input
and is passed in as the `clock` argument. -/

inductive DrawError where
  | IndexOutOfBoundsError
deriving DecidableEq

structure Table where
  header : List String
  rows : List (List String)
deriving DecidableEq

inductive BoardOutcome where
  | ok (t : Table)
  | err (e : DrawError)
  | panicked (msg : String)
deriving DecidableEq

def boardHeader : List String := ["Departure", "Line", "Closest station", "Destination"]

/-- The `{:02}` formatting of hours and minutes. -/
def pad2 (n : Nat) : String :=
  if n < 10 then "0" ++ toString n else toString n

/-- One data row (lines 331-349): display time is `time_real` if present else
`time_planned`, formatted `HH:MM (+countdown)`; then line name, station,
destination. -/
def renderRow (dep : Departure) : List String :=
  let t := match dep.time_real with
    | some time => time
    | none => dep.time_planned
  [pad2 t.hour ++ ":" ++ pad2 t.minute ++ " (+" ++ toString dep.countdown ++ ")",
   dep.line.name, dep.station_name, dep.destination_name]

/-- The formatter `get_departure_board` (lines 308-380).  `width` is only handed to the
external layout engine, so it does not influence the row structure modelled
here.  With checked arithmetic, `height - 5` panics for `height < 5`
(line 323), and the blank-row count `departures.len() - (height - 5)`
(line 353) panics whenever the guard `departures.len() < height - 5`
(line 352) holds, since the subtraction is then negative.  (A release build
wraps instead, producing about `2 ^ 64` blank rows — broken either way.) -/
def get_departure_board (departures : List Departure)
    (trafficinfo : Option (List WienerLinienTrafficInfo))
    (traffic_info_index : Option Nat) (clock : String)
    (width height : Nat) : BoardOutcome :=
  let _ := width
  if height < 5 then .panicked "attempt to subtract with overflow"
  else
    let content_height := height - 5
    let rows := (departures.take (content_height / 3)).map renderRow
    if departures.length < content_height then
      .panicked "attempt to subtract with overflow"
    else
      match traffic_info_index with
      | some index =>
        match trafficinfo with
        | none => .err .IndexOutOfBoundsError
        | some infovec =>
          match infovec[index]? with
          | none => .err .IndexOutOfBoundsError
          | some info =>
            .ok { header := boardHeader
                  rows := rows ++ [[clock,
                    toString (index + 1) ++ "/" ++ toString infovec.length,
                    info.title, info.description]] }
      | none => .ok { header := boardHeader, rows := rows ++ [[clock]] }

/-! ### Frame differ (`Buffer`, lines 382-417)

`width`/`height` are `u16` in the source and `content` is the rendered
string; they are modelled as `Nat` and `List Char`. -/

structure Buffer where
  width : Nat
  height : Nat
  content : List Char

/-- The enumerated zip loop of `get_diff` (lines 403-410), carrying the
running index `i`.  The Rust cast `i as u16` is the explicit `% 2 ^ 16`;
`x = i as u16 % width` and `y = i as u16 / width` (a zero `width` would make
the Rust remainder panic; the theorems below assume a positive width). -/
def diffAux (w : Nat) : Nat → List (Char × Char) → List (Nat × Nat × Char)
  | _, [] => []
  | i, (current, previous) :: rest =>
    if current ≠ previous then
      ((i % 65536) % w, (i % 65536) / w, current) :: diffAux w (i + 1) rest
    else diffAux w (i + 1) rest

/-- The method `Buffer::get_diff` (lines 400-412): `self` is the current buffer, `other`
the previous one; `zip` truncates to the shorter content. -/
def Buffer.get_diff (self other : Buffer) : List (Nat × Nat × Char) :=
  diffAux self.width 0 (self.content.zip other.content)

/-- The method `Buffer::has_resized` (lines 414-416). -/
def Buffer.has_resized (self other : Buffer) : Bool :=
  self.width != other.width || self.height != other.height

/-- Applying an update list as point writes: each `(x, y, c)` writes `c` at
the row-major index `y * width + x` (the claim's reading of the terminal
`MoveTo(x, y); Print(c)` pair at lines 474-477). -/
def applyWrites (w : Nat) (writes : List (Nat × Nat × Char)) (s : List Char) : List Char :=
  writes.foldl (fun acc e => acc.set (e.2.1 * w + e.1) e.2.2) s

/-- Row-major index of one emitted update. -/
def entryIdx (w : Nat) (e : Nat × Nat × Char) : Nat := e.2.1 * w + e.1

/-! ### Refresh loop (`main`, lines 428-490)

The loop body per fetch cycle: ten sub-frames (`for i in 1..11`), each reading
the terminal size (modelled as the fixed `w`/`h` arguments), decrementing both
by one (checked), computing `traffic_info_index = Some(i % traffic.len())`
when traffic info is present (line 445-449), and calling
`get_departure_board` with a literal `None` index (line 454; the computed
index on line 455 is commented out).  A failing board (`?` with context,
line 459) or any panic ends the process.  The buffer diffing and terminal
writing of lines 461-487 are output to the external terminal and do not feed
back into the state, so the trace records the board of each sub-frame
instead. -/

inductive ExitKind where
  | apiErr (e : ApiRequestError)
  | drawErr (e : DrawError)
  | panicked (msg : String)
deriving DecidableEq

/-- What one sub-frame did: the rotation index the loop computed (lines
445-449), the index it actually passed to the formatter (line 454), and the
board it drew. -/
structure SubTrace where
  computedIndex : Option Nat
  passedIndex : Option Nat
  board : Table
deriving DecidableEq

/-- Lines 445-449: `Some(i % traffic.len())` when traffic info is present —
a remainder by zero (a panic) when the traffic list is present but empty. -/
def computeTrafficIndex (i : Nat)
    (traffic_info : Option (List WienerLinienTrafficInfo)) :
    Except ExitKind (Option Nat) :=
  match traffic_info with
  | some traffic =>
    if traffic.length = 0 then
      .error (.panicked "attempt to calculate the remainder with a divisor of zero")
    else .ok (some (i % traffic.length))
  | none => .ok none

/-- The sub-frame loop over the remaining values of `i`. -/
def runSubframes (departures : List Departure)
    (traffic_info : Option (List WienerLinienTrafficInfo))
    (w h : Nat) (clock : String) : List Nat → List SubTrace × Option ExitKind
  | [] => ([], none)
  | i :: rest =>
    if w = 0 then ([], some (.panicked "attempt to subtract with overflow"))
    else if h = 0 then ([], some (.panicked "attempt to subtract with overflow"))
    else
      match computeTrafficIndex i traffic_info with
      | .error k => ([], some k)
      | .ok computed =>
        let passed : Option Nat := none
        match get_departure_board departures traffic_info passed clock (w - 1) (h - 1) with
        | .panicked m => ([], some (.panicked m))
        | .err e => ([], some (.drawErr e))
        | .ok t =>
          let (tr, ex) := runSubframes departures traffic_info w h clock rest
          ({ computedIndex := computed, passedIndex := passed, board := t } :: tr, ex)

/-- One fetch cycle's ten sub-frames (`for i in 1..11`). -/
def runCycle (departures : List Departure)
    (traffic_info : Option (List WienerLinienTrafficInfo))
    (w h : Nat) (clock : String) : List SubTrace × Option ExitKind :=
  runSubframes departures traffic_info w h clock (List.range' 1 10)

inductive MainEnd where
  | outOfFetches
  | exited (k : ExitKind)
deriving DecidableEq

/-- The outer `loop` of `main` (lines 432-489), driven by the successive
results of `make_api_request` (the fetch is external, so they are an input
stream; the list ending means the process is still running and waiting on the
next fetch).  The `?` on line 435 makes any fetch error return from `main`,
ending the process. -/
def runMain (w h : Nat) (clock : String) :
    List (NR (List Departure × Option (List WienerLinienTrafficInfo))) →
    List SubTrace × MainEnd
  | [] => ([], .outOfFetches)
  | f :: rest =>
    match f with
    | .error (.err e) => ([], .exited (.apiErr e))
    | .error (.panicked m) => ([], .exited (.panicked m))
    | .ok (departures, traffic) =>
      match runCycle departures traffic w h clock with
      | (tr, some k) => (tr, .exited k)
      | (tr, none) =>
        let (tr2, e2) := runMain w h clock rest
        (tr ++ tr2, e2)

/-! ### Concrete payload fixtures -/

/-- A raw departure object with a planned time and a countdown. -/
def depJson (tp : String) (cd : Int) : Json :=
  Json.obj [("departureTime",
    Json.obj [("timePlanned", Json.str tp), ("countdown", Json.num cd)])]

def lineJson (nm ty tw : String) (ds : List Json) : Json :=
  Json.obj [("name", Json.str nm), ("towards", Json.str tw), ("type", Json.str ty),
    ("departures", Json.obj [("departure", Json.arr ds)])]

def monJson (title : String) (ls : List Json) : Json :=
  Json.obj [("locationStop",
      Json.obj [("properties", Json.obj [("title", Json.str title)])]),
    ("lines", Json.arr ls)]

def payloadJson (monitors : List Json) (traffic : Option (List Json)) : Json :=
  Json.obj [("data", Json.obj
    (("monitors", Json.arr monitors) ::
      (match traffic with
       | some ts => [("trafficInfos", Json.arr ts)]
       | none => [])))]

/-- The spec's round-trip example line, with vehicle code `"ptFerry"`. -/
def ferryLine : WienerLinienLine :=
  { name := "F1", destination := "Harbor", vehicle_type := "ptFerry"
    departures := { departure := [] } }

def c6Payload : Json :=
  payloadJson [monJson "Rathaus" [lineJson "F1" "ptFerry" "Harbor"
    [depJson "2024-01-01T10:00:00" 5]]] none

/-- Well-formed monitors plus a traffic note missing its `description`. -/
def c3LenientPayload : Json :=
  payloadJson
    [monJson "Rathaus" [lineJson "2" "ptTram" "Friedrich-Engels-Platz"
      [depJson "2024-01-01T10:00:00" 5]]]
    (some [Json.obj [("title", Json.str "T")]])

def c3LenientMonitor : WienerLinienMonitor :=
  { locationStop := { properties := { title := "Rathaus" } }
    lines := [{ name := "2", destination := "Friedrich-Engels-Platz"
                vehicle_type := "ptTram"
                departures := { departure := [{ departure_time :=
                  { time_planned := { raw := "2024-01-01T10:00:00", hour := 10, minute := 0 }
                    time_real := none, countdown := 5 } }] } }] }

def c3LenientDep : Departure :=
  { time_planned := { raw := "2024-01-01T10:00:00", hour := 10, minute := 0 }
    time_real := none
    countdown := 5
    station_name := "Rathaus"
    destination_name := "Friedrich-Engels-Platz"
    line := { vehicle_type := .Tram, name := "2" } }

/-- A monitor whose `locationStop` is missing (malformed monitor entry). -/
def c3BadMonPayload : Json :=
  payloadJson [Json.obj [("lines", Json.arr [])]] none

/-- A well-formed `locationStop` but a malformed element inside `lines`
(the `name` field is missing), which the source `.unwrap()`s. -/
def c3BadLinePayload : Json :=
  payloadJson [monJson "Rathaus" [Json.obj [("towards", Json.str "X")]]] none

def tis3 : List WienerLinienTrafficInfo :=
  [{ title := "A", description := "a" },
   { title := "B", description := "b" },
   { title := "C", description := "c" }]

/-! ### C5 — departure-board row budget and padding -/

/-- C5: the spec says that with fewer departures than the
`floor((height-5)/3)` available rows, the board is padded with empty rows to
fill the remaining space.  The code instead computes the blank count as
`departures.len() - (height - 5)`, which is negative whenever the guard
`departures.len() < height - 5` holds: with no departures and height 11 the
board construction panics on the underflow (a release build would wrap to
roughly `2 ^ 64` blank rows) instead of adding empty rows. -/
theorem c5_board_padding_underflow :
    get_departure_board [] none none "00:00:00" 40 11 =
      .panicked "attempt to subtract with overflow" := by decide

/-! ### C6 — unknown vehicle codes -/

/-- C6 counterexample: for the `"ptFerry"` payload, normalization does not
fail with a recoverable `ApiRequestError` (there is no `UnknownVehicleCode`
variant in the source's error enum at lines 45-55): it panics. -/
theorem c6_counterexample :
    normalize c6Payload = .error (.panicked "Unknown vehicle type!") ∧
      isApiErrOutcome (normalize c6Payload) = false := by decide

/-- C6 (amended): a line entry whose vehicle-type code is not one of the four
recognized codes makes `Line::from_wiener_linien_line` panic with
`"Unknown vehicle type!"` — it never substitutes a default vehicle type. -/
theorem c6_unknown_vehicle_code_panics (input : WienerLinienLine)
    (h1 : input.vehicle_type ≠ "ptTram") (h2 : input.vehicle_type ≠ "ptMetro")
    (h3 : input.vehicle_type ≠ "ptBusCity") (h4 : input.vehicle_type ≠ "ptBusNight") :
    Line.from_wiener_linien_line input = .error (.panicked "Unknown vehicle type!") := by
  unfold Line.from_wiener_linien_line
  split <;> simp_all

theorem c6_witness :
    Line.from_wiener_linien_line ferryLine = .error (.panicked "Unknown vehicle type!") :=
  c6_unknown_vehicle_code_panics ferryLine (by decide) (by decide) (by decide) (by decide)

/-! ### C7 — footer rotation label -/

/-- C7 counterexample: with 3 traffic notes present, rotation index 3 does
not wrap around to the first note with label `"1/3"`; `infovec.get(3)`
(line 366) is out of bounds and the formatter returns
`IndexOutOfBoundsError`. -/
theorem c7_counterexample :
    get_departure_board [] (some tis3) (some 3) "12:00:00" 80 5 =
      .err .IndexOutOfBoundsError := by decide

/-- C7 (amended): for a present traffic-note sequence and an in-bounds
rotation index `i`, the footer row carries the wall clock, the label
`"{i+1}/{total}"`, and the note's title and description; the note used is the
one at position `i` itself (no modulo is applied inside the formatter), and
an index equal to the length errors out instead of wrapping.  Height 5
reserves no data rows, isolating the footer. -/
theorem c7_footer_label (departures : List Departure)
    (tis : List WienerLinienTrafficInfo) (i : Nat) (clock : String) (w : Nat)
    (h : i < tis.length) :
    get_departure_board departures (some tis) (some i) clock w 5 =
      .ok { header := boardHeader
            rows := [[clock, toString (i + 1) ++ "/" ++ toString tis.length,
                      (tis.get ⟨i, h⟩).title, (tis.get ⟨i, h⟩).description]] } := by
  unfold get_departure_board
  simp [List.getElem?_eq_getElem h]

theorem c7_witness :
    get_departure_board [] (some tis3) (some 1) "12:00:00" 80 5 =
      .ok { header := boardHeader
            rows := [["12:00:00", "2/3", "B", "b"]] } :=
  c7_footer_label [] tis3 1 "12:00:00" 80 (by decide)

/-! ### C4 — fetch errors and the outer loop -/

/-- C4 counterexample: after a fetch that returns `MissingField("monitors")`,
the run ends as `exited` with that error and zero sub-frames, even though a
following successful fetch is available — the loop does not continue to the
next iteration.  (The second conjunct shows a successful fetch alone would
have produced ten sub-frames.) -/
theorem c4_counterexample :
    runMain 80 6 "12:00:00"
        [.error (.err (.missingField "monitors")), .ok ([], none)] =
      ([], .exited (.apiErr (.missingField "monitors"))) ∧
    (runMain 80 6 "12:00:00" [.ok ([], none)]).1.length = 10 := by decide

/-- C4 (amended): any transport, parse, or normalization error returned by a
fetch propagates out of the loop through the `?` on line 435 and terminates
the process at once: no sub-frame runs and no later fetch is consumed.  There
is no structural retry. -/
theorem c4_fetch_error_terminates (w h : Nat) (clock : String)
    (e : ApiRequestError)
    (rest : List (NR (List Departure × Option (List WienerLinienTrafficInfo)))) :
    runMain w h clock (.error (.err e) :: rest) = ([], .exited (.apiErr e)) := rfl

/-! ### C10 — present-but-empty traffic list -/

/-- C10: when a fetch succeeds with a present but empty traffic-note list,
the rotation-index computation `i % traffic.len()` (line 446) is a remainder
by zero: the process panics on the first sub-frame, before any board is
produced (the trace is empty). -/
theorem c10_empty_traffic_panics (departures : List Departure) (w h : Nat)
    (clock : String)
    (rest : List (NR (List Departure × Option (List WienerLinienTrafficInfo))))
    (hw : 1 ≤ w) (hh : 1 ≤ h) :
    runMain w h clock (.ok (departures, some []) :: rest) =
      ([], .exited (.panicked "attempt to calculate the remainder with a divisor of zero")) := by
  have hw' : ¬ w = 0 := by omega
  have hh' : ¬ h = 0 := by omega
  simp [runMain, runCycle, runSubframes, computeTrafficIndex, hw', hh', List.range']

theorem c10_witness :
    runMain 80 24 "12:00:00" [.ok ([], some [])] =
      ([], .exited (.panicked "attempt to calculate the remainder with a divisor of zero")) :=
  c10_empty_traffic_panics [] 80 24 "12:00:00" [] (by decide) (by decide)

/-! ### C3 — leniency asymmetry -/

/-- If any element of the traffic section fails to parse, the whole
collection is discarded (the `.ok()` on line 294). -/
theorem tiParse_none_of_mem {ts : List Json} {t : Json} (ht : t ∈ ts)
    (hf : parseTrafficInfo t = none) : tiParse ts = none := by
  induction ts with
  | nil => cases ht
  | cons a as ih =>
    cases ht with
    | head => simp [tiParse, hf]
    | tail _ hmem =>
      unfold tiParse
      cases hpa : parseTrafficInfo a
      · rfl
      · simp [ih hmem]

/-- If any element of the monitors array fails its per-monitor parse, the
whole `try_for_each` fails (with the first failure encountered). -/
theorem parseMonitors_error_of_mem {ms : List Json} {m : Json} (hm : m ∈ ms)
    {f : Fail} (hf : parseMonitor m = .error f) :
    ∃ g, parseMonitors ms = .error g := by
  induction ms with
  | nil => cases hm
  | cons a as ih =>
    unfold parseMonitors
    cases hpa : parseMonitor a with
    | error g => exact ⟨g, rfl⟩
    | ok wm =>
      cases hm with
      | head => rw [hpa] at hf; cases hf
      | tail _ hmem =>
        obtain ⟨g, hg⟩ := ih hmem
        exact ⟨g, by rw [hg]; rfl⟩

/-- C3 (amended): normalization is lenient for traffic notes but strict for
monitors.  First part: when the monitors all parse and flatten successfully
but some element of a present traffic section fails to parse, normalization
succeeds and the traffic-note result is absent (never a partial list).
Second part: when some monitor entry fails its per-monitor parse,
normalization never succeeds — though not always "with an error": a malformed
`locationStop` or missing `lines` produces an error return, while a malformed
element inside a `lines` array makes the source panic on `.unwrap()`
(line 259), as the counterexample pins down. -/
theorem c3_leniency_asymmetry :
    (∀ (payload : Json) (mjs : List Json) (mons : List WienerLinienMonitor)
        (raw : List Departure) (tjs : List Json) (t : Json),
        monitorsJson payload = some mjs →
        parseMonitors mjs = .ok mons →
        collectDepartures mons = .ok raw →
        trafficInfosJson payload = some tjs →
        t ∈ tjs → parseTrafficInfo t = none →
        normalize payload = .ok (List.insertionSort depLE raw, none)) ∧
    (∀ (payload : Json) (mjs : List Json) (m : Json) (f : Fail),
        monitorsJson payload = some mjs →
        m ∈ mjs → parseMonitor m = .error f →
        ∀ r, normalize payload ≠ .ok r) := by
  constructor
  · intro p mjs mons raw tjs t hm hpm hcd ht hmem hbad
    unfold normalize normalizeRaw
    simp [hm, hpm, hcd, ht, tiParse_none_of_mem hmem hbad]
  · intro p mjs m f hm hmem hpm r
    obtain ⟨g, hg⟩ := parseMonitors_error_of_mem hmem hpm
    unfold normalize normalizeRaw
    simp [hm, hg]

/-- C3 witness: the lenient payload (well-formed monitor, traffic note
missing its description) normalizes successfully with absent traffic notes;
the payload whose monitor lacks a `locationStop` never normalizes. -/
theorem c3_witness :
    normalize c3LenientPayload =
      .ok (List.insertionSort depLE [c3LenientDep], none) ∧
    normalize c3BadMonPayload ≠ .ok ([], none) :=
  ⟨c3_leniency_asymmetry.1 c3LenientPayload
      [monJson "Rathaus" [lineJson "2" "ptTram" "Friedrich-Engels-Platz"
        [depJson "2024-01-01T10:00:00" 5]]]
      [c3LenientMonitor] [c3LenientDep] [Json.obj [("title", Json.str "T")]]
      (Json.obj [("title", Json.str "T")])
      rfl (by decide) (by decide) rfl (List.Mem.head _) (by decide),
   c3_leniency_asymmetry.2 c3BadMonPayload [Json.obj [("lines", Json.arr [])]]
      (Json.obj [("lines", Json.arr [])])
      (.err (.jsonParsingFailed "WienerLinienLocationStop"))
      rfl (List.Mem.head _) (by decide) ([], none)⟩

/-- C3 counterexample: a payload containing a malformed monitor entry (a
well-formed `locationStop` but a line element with no `name`) does not make
the whole normalization "fail with an error": it panics on the `.unwrap()`
at line 259, which is not an `ApiRequestError` return. -/
theorem c3_counterexample :
    normalize c3BadLinePayload =
      .error (.panicked "called Result::unwrap() on an Err value") ∧
    isApiErrOutcome (normalize c3BadLinePayload) = false := by decide

/-! ### C2 — the departure sort -/

/-- Stability of one insertion step, phrased through the tie class of a
countdown value `k`: inserting `a` in front of every strictly larger element
(and behind every `≤`-related one) prepends `a` to its tie class and leaves
every tie class otherwise unchanged. -/
theorem filter_orderedInsert (k : Int) (a : Departure) (l : List Departure) :
    (List.orderedInsert depLE a l).filter (fun d => decide (d.countdown = k)) =
      if a.countdown = k then
        a :: l.filter (fun d => decide (d.countdown = k))
      else l.filter (fun d => decide (d.countdown = k)) := by
  induction l with
  | nil =>
    simp only [List.orderedInsert, List.filter]
    split <;> simp_all
  | cons b l ih =>
    by_cases hab : depLE a b
    · simp only [List.orderedInsert, if_pos hab, List.filter_cons]
      by_cases hak : a.countdown = k <;> simp [hak]
    · have hlt : b.countdown < a.countdown := by
        simp only [depLE, not_le] at hab; exact hab
      simp only [List.orderedInsert, if_neg hab, List.filter_cons]
      by_cases hbk : b.countdown = k
      · have hak : ¬ a.countdown = k := by omega
        simp [hbk, hak, ih]
      · simp [hbk, ih]

/-- Stability of the whole sort: every tie class of equal countdowns keeps
its input order. -/
theorem filter_insertionSort (k : Int) (l : List Departure) :
    (List.insertionSort depLE l).filter (fun d => decide (d.countdown = k)) =
      l.filter (fun d => decide (d.countdown = k)) := by
  induction l with
  | nil => rfl
  | cons a l ih =>
    simp only [List.insertionSort, filter_orderedInsert, ih, List.filter_cons]
    by_cases hak : a.countdown = k <;> simp [hak]

/-- The insertion step looks only at `countdown`, so it commutes with every
countdown-preserving rewrite of the departures. -/
theorem orderedInsert_map (f : Departure → Departure)
    (hf : ∀ d, (f d).countdown = d.countdown) (a : Departure) (l : List Departure) :
    List.orderedInsert depLE (f a) (l.map f) = (List.orderedInsert depLE a l).map f := by
  induction l with
  | nil => rfl
  | cons b l ih =>
    have hiff : depLE (f a) (f b) ↔ depLE a b := by simp [depLE, hf]
    simp only [List.map_cons, List.orderedInsert]
    by_cases hab : depLE a b
    · rw [if_pos (hiff.mpr hab), if_pos hab]; simp
    · rw [if_neg (fun h => hab (hiff.mp h)), if_neg hab]; simp [ih]

theorem insertionSort_map (f : Departure → Departure)
    (hf : ∀ d, (f d).countdown = d.countdown) (l : List Departure) :
    List.insertionSort depLE (l.map f) = (List.insertionSort depLE l).map f := by
  induction l with
  | nil => rfl
  | cons a l ih =>
    simp only [List.map_cons, List.insertionSort, ih, orderedInsert_map f hf]

/-- C2: for every payload that `make_api_request` normalizes successfully
(equivalently: whose pre-sort pipeline yields the flattened list `raw`), the
returned sequence is `raw` sorted so that countdowns are non-decreasing (for
any two positions, not just adjacent ones), ties keep their input order
(every tie class filters back to the input order), and the order depends on
no field other than `countdown` (the sort commutes with every
countdown-preserving rewrite of the entries). -/
theorem c2_sort_by_countdown (payload : Json) (raw : List Departure)
    (ti : Option (List WienerLinienTrafficInfo))
    (hmk : normalizeRaw payload = .ok (raw, ti)) :
    normalize payload = .ok (List.insertionSort depLE raw, ti) ∧
    (∀ (i j : Fin (List.insertionSort depLE raw).length), i < j →
      ((List.insertionSort depLE raw).get i).countdown ≤
        ((List.insertionSort depLE raw).get j).countdown) ∧
    (∀ k : Int,
      (List.insertionSort depLE raw).filter (fun d => decide (d.countdown = k)) =
        raw.filter (fun d => decide (d.countdown = k))) ∧
    (∀ f : Departure → Departure, (∀ d, (f d).countdown = d.countdown) →
      List.insertionSort depLE (raw.map f) = (List.insertionSort depLE raw).map f) := by
  refine ⟨?_, ?_, ?_, ?_⟩
  · unfold normalize; rw [hmk]
  · intro i j hij
    exact List.pairwise_iff_get.mp (List.sorted_insertionSort depLE raw) i j hij
  · intro k
    exact filter_insertionSort k raw
  · intro f hf
    exact insertionSort_map f hf raw

def c2Payload : Json :=
  payloadJson [monJson "Rathaus" [lineJson "2" "ptTram" "Friedrich-Engels-Platz"
    [depJson "2024-01-01T10:05:00" 5,
     depJson "2024-01-01T10:03:00" 3,
     depJson "2024-01-01T10:04:00" 3]]] none

def c2RawDep (tp : String) (m : Nat) (cd : Int) : Departure :=
  { time_planned := { raw := tp, hour := 10, minute := m }
    time_real := none
    countdown := cd
    station_name := "Rathaus"
    destination_name := "Friedrich-Engels-Platz"
    line := { vehicle_type := .Tram, name := "2" } }

/-- The flattened (unsorted) departures of `c2Payload`: countdowns 5, 3, 3. -/
def c2Raw : List Departure :=
  [c2RawDep "2024-01-01T10:05:00" 5 5,
   c2RawDep "2024-01-01T10:03:00" 3 3,
   c2RawDep "2024-01-01T10:04:00" 4 3]

theorem c2_witness :
    normalize c2Payload = .ok (List.insertionSort depLE c2Raw, none) ∧
    (∀ (i j : Fin (List.insertionSort depLE c2Raw).length), i < j →
      ((List.insertionSort depLE c2Raw).get i).countdown ≤
        ((List.insertionSort depLE c2Raw).get j).countdown) ∧
    (∀ k : Int,
      (List.insertionSort depLE c2Raw).filter (fun d => decide (d.countdown = k)) =
        c2Raw.filter (fun d => decide (d.countdown = k))) ∧
    (∀ f : Departure → Departure, (∀ d, (f d).countdown = d.countdown) →
      List.insertionSort depLE (c2Raw.map f) = (List.insertionSort depLE c2Raw).map f) :=
  c2_sort_by_countdown c2Payload c2Raw none (by decide)

/-! ### C1 and C8 — the frame diff -/

/-- Every emitted update comes from a position `k` of the zipped contents
whose two characters differ, and carries the coordinates computed from the
absolute index `i₀ + k` and the current character. -/
theorem diffAux_mem {w : Nat} :
    ∀ (pairs : List (Char × Char)) (i₀ : Nat) (e : Nat × Nat × Char),
      e ∈ diffAux w i₀ pairs →
      ∃ (k : Nat) (hk : k < pairs.length),
        (pairs.get ⟨k, hk⟩).1 ≠ (pairs.get ⟨k, hk⟩).2 ∧
        e = (((i₀ + k) % 65536) % w, ((i₀ + k) % 65536) / w, (pairs.get ⟨k, hk⟩).1) := by
  intro pairs
  induction pairs with
  | nil => intro i₀ e he; cases he
  | cons cp rest ih =>
    intro i₀ e he
    obtain ⟨c, p⟩ := cp
    unfold diffAux at he
    by_cases hcp : c ≠ p
    · rw [if_pos hcp] at he
      cases he with
      | head => exact ⟨0, by simp, by simpa using hcp, by simp⟩
      | tail _ hmem =>
        obtain ⟨k, hk, hne, he'⟩ := ih (i₀ + 1) e hmem
        refine ⟨k + 1, by simpa using Nat.succ_lt_succ hk, by simpa using hne, ?_⟩
        rw [show i₀ + (k + 1) = i₀ + 1 + k from by omega]
        simpa using he'
    · rw [if_neg hcp] at he
      obtain ⟨k, hk, hne, he'⟩ := ih (i₀ + 1) e he
      refine ⟨k + 1, by simpa using Nat.succ_lt_succ hk, by simpa using hne, ?_⟩
      rw [show i₀ + (k + 1) = i₀ + 1 + k from by omega]
      simpa using he'

/-- Decoding the emitted coordinates recovers the absolute index, for indices
below `2 ^ 16`. -/
theorem entryIdx_enc (w i : Nat) (hi : i < 65536) (c : Char) :
    entryIdx w ((i % 65536) % w, (i % 65536) / w, c) = i := by
  unfold entryIdx
  simp only
  rw [Nat.mod_eq_of_lt hi, Nat.mul_comm]
  exact Nat.div_add_mod i w

/-- The row-major indices of the emitted updates are within the processed
window. -/
theorem diffAux_idx_bounds {w : Nat} (pairs : List (Char × Char)) (i₀ : Nat)
    (hbound : i₀ + pairs.length ≤ 65536) (e : Nat × Nat × Char)
    (he : e ∈ diffAux w i₀ pairs) :
    i₀ ≤ entryIdx w e ∧ entryIdx w e < i₀ + pairs.length := by
  obtain ⟨k, hk, _, rfl⟩ := diffAux_mem pairs i₀ e he
  rw [entryIdx_enc w (i₀ + k) (by omega)]
  omega

/-- The emitted updates have strictly increasing row-major indices. -/
theorem diffAux_pairwise_idx {w : Nat} :
    ∀ (pairs : List (Char × Char)) (i₀ : Nat), i₀ + pairs.length ≤ 65536 →
      List.Pairwise (fun a b => entryIdx w a < entryIdx w b) (diffAux w i₀ pairs) := by
  intro pairs
  induction pairs with
  | nil => intro i₀ _; exact List.Pairwise.nil
  | cons cp rest ih =>
    intro i₀ hbound
    have hbound' : i₀ + (rest.length + 1) ≤ 65536 := by simpa using hbound
    obtain ⟨c, p⟩ := cp
    unfold diffAux
    by_cases hcp : c ≠ p
    · rw [if_pos hcp]
      refine List.Pairwise.cons ?_ (ih (i₀ + 1) (by omega))
      intro b hb
      have hlower := (diffAux_idx_bounds rest (i₀ + 1) (by omega) b hb).1
      rw [entryIdx_enc w i₀ (by omega)]
      omega
    · rw [if_neg hcp]
      exact ih (i₀ + 1) (by omega)

/-- Pointwise effect of applying the updates of `diffAux` over a window of
`full` that agrees with the previous characters: inside the window the result
carries the current characters, outside it is untouched. -/
theorem applyWrites_diffAux {w : Nat} :
    ∀ (pairs : List (Char × Char)) (i₀ : Nat) (full : List Char),
      i₀ + pairs.length ≤ 65536 →
      (∀ k, k < pairs.length → full[i₀ + k]? = (pairs[k]?).map Prod.snd) →
      ∀ j : Nat, (applyWrites w (diffAux w i₀ pairs) full)[j]? =
        if i₀ ≤ j ∧ j < i₀ + pairs.length then (pairs[j - i₀]?).map Prod.fst
        else full[j]? := by
  intro pairs
  induction pairs with
  | nil =>
    intro i₀ full _ _ j
    have hno : ¬ (i₀ ≤ j ∧ j < i₀ + ([] : List (Char × Char)).length) := by
      simp only [List.length_nil]
      omega
    rw [if_neg hno]
    rfl
  | cons cp rest ih =>
    intro i₀ full hbound hwin j
    obtain ⟨c, p⟩ := cp
    have hbound' : i₀ + (rest.length + 1) ≤ 65536 := by simpa using hbound
    have hfull0 : full[i₀]? = some p := by
      have h0 := hwin 0 (by simp)
      simpa using h0
    have hi₀lt : i₀ < full.length := by
      by_contra hcon
      rw [List.getElem?_eq_none (by omega)] at hfull0
      cases hfull0
    have hidx : (i₀ % 65536) / w * w + (i₀ % 65536) % w = i₀ := by
      rw [Nat.mod_eq_of_lt (by omega), Nat.mul_comm]
      exact Nat.div_add_mod i₀ w
    unfold diffAux
    by_cases hcp : c ≠ p
    · rw [if_pos hcp]
      have hstep :
          applyWrites w (((i₀ % 65536) % w, (i₀ % 65536) / w, c) :: diffAux w (i₀ + 1) rest) full
            = applyWrites w (diffAux w (i₀ + 1) rest) (full.set i₀ c) := by
        unfold applyWrites
        simp only [List.foldl_cons]
        rw [hidx]
      rw [hstep]
      rw [ih (i₀ + 1) (full.set i₀ c) (by omega) ?win j]
      case win =>
        intro k hk
        rw [List.getElem?_set_ne (by omega : i₀ ≠ i₀ + 1 + k)]
        have hw := hwin (k + 1) (by simpa using Nat.succ_lt_succ hk)
        rw [show i₀ + 1 + k = i₀ + (k + 1) from by omega, hw]
        simp
      by_cases hj1 : j = i₀
      · subst hj1
        rw [if_neg (by omega)]
        rw [if_pos ⟨le_refl _, by simp only [List.length_cons]; omega⟩]
        rw [List.getElem?_set_eq_of_lt c hi₀lt]
        simp
      · by_cases hj2 : i₀ + 1 ≤ j ∧ j < i₀ + 1 + rest.length
        · rw [if_pos hj2]
          rw [if_pos ⟨by omega, by simp only [List.length_cons]; omega⟩]
          rw [show j - i₀ = (j - (i₀ + 1)) + 1 from by omega]
          simp
        · rw [if_neg hj2]
          rw [if_neg (by simp only [List.length_cons]; omega)]
          rw [List.getElem?_set_ne (by omega : i₀ ≠ j)]
    · rw [if_neg hcp]
      have hcpe : c = p := not_not.mp hcp
      rw [ih (i₀ + 1) full (by omega) ?win2 j]
      case win2 =>
        intro k hk
        have hw := hwin (k + 1) (by simpa using Nat.succ_lt_succ hk)
        rw [show i₀ + 1 + k = i₀ + (k + 1) from by omega, hw]
        simp
      by_cases hj1 : j = i₀
      · subst hj1
        rw [if_neg (by omega)]
        rw [if_pos ⟨le_refl _, by simp only [List.length_cons]; omega⟩]
        rw [hfull0]
        simp [hcpe]
      · by_cases hj2 : i₀ + 1 ≤ j ∧ j < i₀ + 1 + rest.length
        · rw [if_pos hj2]
          rw [if_pos ⟨by omega, by simp only [List.length_cons]; omega⟩]
          rw [show j - i₀ = (j - (i₀ + 1)) + 1 from by omega]
          simp
        · rw [if_neg hj2]
          rw [if_neg (by simp only [List.length_cons]; omega)]

/-- Applying a list of point writes with pairwise distinct row-major indices
is invariant under permutation of the writes. -/
theorem applyWrites_perm {w : Nat} :
    ∀ {l₁ l₂ : List (Nat × Nat × Char)}, l₁.Perm l₂ →
      List.Pairwise (fun a b => entryIdx w a ≠ entryIdx w b) l₁ →
      ∀ s : List Char, applyWrites w l₁ s = applyWrites w l₂ s := by
  intro l₁ l₂ hp
  induction hp with
  | nil => intro _ _; rfl
  | cons x _ ih =>
    intro hpw s
    unfold applyWrites
    simp only [List.foldl_cons]
    exact ih (List.pairwise_cons.mp hpw).2 _
  | swap x y l =>
    intro hpw s
    have hxy : y.2.1 * w + y.1 ≠ x.2.1 * w + x.1 :=
      (List.pairwise_cons.mp hpw).1 x (by simp)
    unfold applyWrites
    simp only [List.foldl_cons]
    rw [List.set_comm _ _ _ hxy]
  | trans h₁ _ ih₁ ih₂ =>
    intro hpw s
    rw [ih₁ hpw s, ih₂ ((h₁.pairwise_iff (fun hab => Ne.symm hab)).mp hpw) s]

def c1Prev : Buffer := { width := 2, height := 1, content := ['a'] }

def c1Cur : Buffer := { width := 2, height := 1, content := ['a', 'b'] }

/-- C1 counterexample: two buffers with equal width and equal height whose
contents have different lengths (the claim constrains only the dimensions,
and a `Buffer` carries no invariant tying `content` to them).  The zip in
`get_diff` truncates to the shorter content, so the diff is empty and
applying it to `prev`'s content cannot reproduce `cur`'s. -/
theorem c1_counterexample :
    c1Cur.width = c1Prev.width ∧ c1Cur.height = c1Prev.height ∧
      applyWrites c1Cur.width (c1Cur.get_diff c1Prev) c1Prev.content ≠ c1Cur.content := by
  decide

/-- C1 (amended): for buffers of equal width and height whose contents also
have equal length at most `2 ^ 16` (the `u16` cast `i as u16` of the source
truncates larger indices) and a positive width (a zero width would make the
source's remainder panic), applying the emitted triples — in the emitted
order or in any other order — as point writes at `y * width + x` to `prev`'s
content yields exactly `cur`'s content, and the emitted `(x, y)` coordinates
are pairwise distinct. -/
theorem c1_diff_reproduces (prev cur : Buffer)
    (_hw : cur.width = prev.width) (_hh : cur.height = prev.height)
    (hlen : cur.content.length = prev.content.length)
    (hsize : cur.content.length ≤ 65536) (_hpos : 0 < cur.width) :
    (∀ l', l'.Perm (cur.get_diff prev) →
      applyWrites cur.width l' prev.content = cur.content) ∧
    List.Pairwise (fun a b => (a.1, a.2.1) ≠ (b.1, b.2.1)) (cur.get_diff prev) := by
  have hzlen : (cur.content.zip prev.content).length = cur.content.length := by
    rw [List.length_zip, hlen, Nat.min_self]
  have hbound : 0 + (cur.content.zip prev.content).length ≤ 65536 := by
    omega
  have core : applyWrites cur.width (cur.get_diff prev) prev.content = cur.content := by
    apply List.ext_getElem?
    intro j
    unfold Buffer.get_diff
    rw [applyWrites_diffAux (cur.content.zip prev.content) 0 prev.content hbound ?window j]
    case window =>
      intro k hk
      have hkc : k < cur.content.length := by omega
      have hkp : k < prev.content.length := by omega
      rw [Nat.zero_add]
      rw [List.getElem?_eq_getElem hkp, List.getElem?_eq_getElem (by omega)]
      rw [List.getElem_zip]
      rfl
    by_cases hj : j < cur.content.length
    · rw [if_pos ⟨Nat.zero_le j, by omega⟩]
      rw [List.getElem?_eq_getElem (l := cur.content.zip prev.content) (by omega)]
      rw [List.getElem_zip]
      rw [List.getElem?_eq_getElem hj]
      rfl
    · rw [if_neg (by omega)]
      rw [List.getElem?_eq_none (by omega), List.getElem?_eq_none (by omega)]
  have hpairidx : List.Pairwise
      (fun a b => entryIdx cur.width a < entryIdx cur.width b) (cur.get_diff prev) :=
    diffAux_pairwise_idx (cur.content.zip prev.content) 0 hbound
  refine ⟨?_, ?_⟩
  · intro l' hperm
    have hne : List.Pairwise
        (fun a b => entryIdx cur.width a ≠ entryIdx cur.width b) (cur.get_diff prev) :=
      hpairidx.imp (fun h => Nat.ne_of_lt h)
    have hne' : List.Pairwise
        (fun a b => entryIdx cur.width a ≠ entryIdx cur.width b) l' :=
      (hperm.pairwise_iff (fun hab => Ne.symm hab)).mpr hne
    rw [applyWrites_perm hperm hne' prev.content]
    exact core
  · refine hpairidx.imp ?_
    intro a b hlt hco
    have h1 : a.1 = b.1 := (Prod.ext_iff.mp hco).1
    have h2 : a.2.1 = b.2.1 := (Prod.ext_iff.mp hco).2
    have : entryIdx cur.width a = entryIdx cur.width b := by
      unfold entryIdx
      rw [h1, h2]
    omega

def c1PrevW : Buffer := { width := 2, height := 2, content := ['a', 'b', 'c', 'd'] }

def c1CurW : Buffer := { width := 2, height := 2, content := ['a', 'x', 'c', 'y'] }

theorem c1_witness :
    applyWrites c1CurW.width (c1CurW.get_diff c1PrevW) c1PrevW.content = c1CurW.content ∧
    List.Pairwise (fun a b => (a.1, a.2.1) ≠ (b.1, b.2.1)) (c1CurW.get_diff c1PrevW) := by
  obtain ⟨h1, h2⟩ := c1_diff_reproduces c1PrevW c1CurW rfl rfl rfl (by decide) (by decide)
  exact ⟨h1 _ (List.Perm.refl _), h2⟩

/-- C8: every triple `(x, y, c)` emitted by `get_diff(cur, prev)` originates
from an index `i` (within both contents) where the current character differs
from the previous one; `c` is the current character at `i` and `(x, y)` are
computed from `i` exactly as the source does. -/
theorem c8_diff_minimality (cur prev : Buffer) (e : Nat × Nat × Char)
    (he : e ∈ cur.get_diff prev) :
    ∃ (i : Nat) (hc : i < cur.content.length) (hp : i < prev.content.length),
      cur.content.get ⟨i, hc⟩ ≠ prev.content.get ⟨i, hp⟩ ∧
      e = ((i % 65536) % cur.width, (i % 65536) / cur.width, cur.content.get ⟨i, hc⟩) := by
  obtain ⟨k, hk, hne, he'⟩ := diffAux_mem (cur.content.zip prev.content) 0 e he
  have hkc : k < cur.content.length := by
    have := hk
    rw [List.length_zip] at this
    omega
  have hkp : k < prev.content.length := by
    have := hk
    rw [List.length_zip] at this
    omega
  have hget : (cur.content.zip prev.content).get ⟨k, hk⟩ =
      (cur.content.get ⟨k, hkc⟩, prev.content.get ⟨k, hkp⟩) := by
    simp [List.get_eq_getElem, List.getElem_zip]
  refine ⟨k, hkc, hkp, ?_, ?_⟩
  · rw [hget] at hne
    exact hne
  · rw [hget] at he'
    simpa using he'

def c8Prev : Buffer := { width := 2, height := 1, content := ['a', 'c'] }

def c8Cur : Buffer := { width := 2, height := 1, content := ['a', 'b'] }

theorem c8_witness :
    ∃ (i : Nat) (hc : i < c8Cur.content.length) (hp : i < c8Prev.content.length),
      c8Cur.content.get ⟨i, hc⟩ ≠ c8Prev.content.get ⟨i, hp⟩ ∧
      ((1 : Nat), (0 : Nat), 'b') =
        ((i % 65536) % c8Cur.width, (i % 65536) / c8Cur.width, c8Cur.content.get ⟨i, hc⟩) :=
  c8_diff_minimality c8Cur c8Prev (1, 0, 'b') (by decide)

/-! ### C9 — the rotation index in the refresh loop -/

/-- With no rotation index, the board succeeds whenever the height reserves
at least the five fixed lines and the departures cover the data-row window
(so the buggy blank-row branch of line 352-356 is not taken). -/
theorem get_departure_board_ok (departures : List Departure)
    (ti : Option (List WienerLinienTrafficInfo)) (clock : String) (w h : Nat)
    (h5 : 5 ≤ h) (hlen : h - 5 ≤ departures.length) :
    get_departure_board departures ti none clock w h =
      .ok { header := boardHeader
            rows := (departures.take ((h - 5) / 3)).map renderRow ++ [[clock]] } := by
  unfold get_departure_board
  rw [if_neg (by omega : ¬ h < 5)]
  rw [if_neg (by omega : ¬ departures.length < h - 5)]

/-- The sub-frame loop under the same conditions: every sub-frame computes
`some (i % tis.length)` but passes `none` to the formatter, and the cycle
completes without exiting. -/
theorem runSubframes_traces (departures : List Departure)
    (tis : List WienerLinienTrafficInfo) (w h : Nat) (clock : String)
    (hw : 1 ≤ w) (hh : 6 ≤ h) (hd : h - 6 ≤ departures.length) (htis : tis ≠ []) :
    ∀ is : List Nat,
      ∃ traces, runSubframes departures (some tis) w h clock is = (traces, none) ∧
        traces.map (fun t => t.computedIndex) =
          is.map (fun i => some (i % tis.length)) ∧
        traces.map (fun t => t.passedIndex) = List.replicate is.length none := by
  intro is
  induction is with
  | nil => exact ⟨[], rfl, rfl, rfl⟩
  | cons i is ih =>
    obtain ⟨tr, heq, hci, hpi⟩ := ih
    have hlen0 : tis.length ≠ 0 := by
      intro hc
      exact htis (List.length_eq_zero.mp hc)
    have hboard := get_departure_board_ok departures (some tis) clock (w - 1) (h - 1)
      (by omega) (by omega)
    refine ⟨{ computedIndex := some (i % tis.length), passedIndex := none
              board := { header := boardHeader
                         rows := (departures.take ((h - 1 - 5) / 3)).map renderRow ++ [[clock]] } }
            :: tr, ?_, ?_, ?_⟩
    · unfold runSubframes computeTrafficIndex
      rw [if_neg (by omega : ¬ w = 0), if_neg (by omega : ¬ h = 0)]
      simp only [if_neg hlen0, hboard, heq]
    · simpa using hci
    · simp [List.replicate_succ, hpi]

/-- C9 counterexample: with three traffic notes present and well-formed,
every one of the ten sub-frames of a cycle passes `none` as the rotation
index to the formatter (the literal `&None` at line 454), so the claim that
an explicit present index is supplied on every sub-frame fails already on the
first sub-frame. -/
theorem c9_counterexample :
    (runCycle [] (some tis3) 80 6 "12:00:00").1.map (fun t => t.passedIndex) =
      List.replicate 10 none ∧
    (runCycle [] (some tis3) 80 6 "12:00:00").2 = none := by decide

/-- C9 (amended): on every sub-frame the RefreshLoop computes a rotation
index that advances by one each sub-frame (`Some(i % traffic.len())` for
`i = 1..10`), but it supplies `None` to the formatter on every sub-frame, so
the footer never rotates even when traffic notes are present.  (The
hypotheses keep the cycle alive: positive terminal size, enough height for
the fixed lines, enough departures to avoid the blank-row underflow of C5,
and a non-empty traffic list to avoid the remainder-by-zero of C10.) -/
theorem c9_rotation_index_not_passed (departures : List Departure)
    (tis : List WienerLinienTrafficInfo) (w h : Nat) (clock : String)
    (hw : 1 ≤ w) (hh : 6 ≤ h) (hd : h - 6 ≤ departures.length) (htis : tis ≠ []) :
    ∃ traces, runCycle departures (some tis) w h clock = (traces, none) ∧
      traces.map (fun t => t.computedIndex) =
        (List.range' 1 10).map (fun i => some (i % tis.length)) ∧
      traces.map (fun t => t.passedIndex) = List.replicate 10 none := by
  obtain ⟨traces, heq, hci, hpi⟩ :=
    runSubframes_traces departures tis w h clock hw hh hd htis (List.range' 1 10)
  exact ⟨traces, heq, hci, hpi⟩

theorem c9_witness :
    ∃ traces, runCycle [] (some tis3) 80 6 "12:00:00" = (traces, none) ∧
      traces.map (fun t => t.computedIndex) =
        (List.range' 1 10).map (fun i => some (i % tis3.length)) ∧
      traces.map (fun t => t.passedIndex) = List.replicate 10 none :=
  c9_rotation_index_not_passed [] tis3 80 6 "12:00:00" (by decide) (by decide)
    (by decide) (by decide)

end Oeffi
